import Mathlib

/-!
Verification development for the Kitchen-chat repository.

The file embeds, as executable Lean definitions, the parts of the source
that the checked properties are about:

* `KitchenChat.UserStatus` — the Vercel serverless endpoint
  `src/api/user-status.js` (session-token extraction, the mock
  authentication gate, CORS headers, the inactive-user cleanup, and the
  POST/PUT/GET dispatch over the module-level `users` map).  The map is
  threaded explicitly as a `State` value; `Date.now()` and
  `new Date().toISOString()` are passed in as the parameters `now` and
  `iso` (the source reads the clock more than once per request, but the
  readings within one request are interchangeable for every property
  below).
* `KitchenChat.AuthManager` — the client-side authentication methods of
  `src/auth.js`, modelled as total functions over the outcomes of the
  external Firebase/fetch calls they await (`Except String α` encodes a
  call that either resolves or throws).
* `KitchenChat.CredentialHasher` and `KitchenChat.AbuseThrottle` —
  modelled from the spec: the credential hasher and the abuse throttle
  live in the Python API files (`api/security_utils.py`, `api/auth.py`)
  which are not part of the shipped source tree; only the spec describes
  them.  Their definitions follow the spec text and are marked as such.
-/

namespace KitchenChat

namespace Js

/-!
The JavaScript string primitives the source calls, modelled over the
character list of the string.  All request data in this development is
ASCII, where JS UTF-16 code-unit indexing and character indexing agree.
-/

/-- JS `s.startsWith(pre)`. -/
def listStartsWith : List Char → List Char → Bool
  | _, [] => true
  | [], _ :: _ => false
  | c :: cs, p :: ps => c == p && listStartsWith cs ps

def startsWith (s pre : String) : Bool := listStartsWith s.data pre.data

/-- JS `s.slice(n)`. -/
def slice (s : String) (n : Nat) : String := ⟨s.data.drop n⟩

/-- JS `s.split(sep)` for a one-character separator. -/
def splitChar (sep : Char) : List Char → List (List Char)
  | [] => [[]]
  | c :: cs =>
    let r := splitChar sep cs
    if c == sep then [] :: r
    else
      match r with
      | h :: t => (c :: h) :: t
      | [] => [[c]]

def split (s : String) (sep : Char) : List String :=
  (splitChar sep s.data).map (fun l => ⟨l⟩)

def isWsp (c : Char) : Bool := c == ' ' || c == '\t' || c == '\n' || c == '\r'

/-- JS `s.trim()`. -/
def trim (s : String) : String :=
  ⟨((s.data.dropWhile isWsp).reverse.dropWhile isWsp).reverse⟩

end Js

namespace UserStatus

/-- Principal as produced by `requireAuth` in `src/api/user-status.js`
(line 41): the source returns the fixed mock object
`{ username: 'user', displayName: 'User' }`. -/
structure Principal where
  username : String
  displayName : String
deriving DecidableEq

/-- One entry of the module-level `users` map (line 6 and the record
built at lines 113-124 of `src/api/user-status.js`). -/
structure UserRecord where
  uid : String
  displayName : String
  status : String
  timestamp : Nat
  lastSeen : String
  bio : String
  theme : String
  notifications : Bool
  soundEnabled : Bool
  photoURL : String
deriving DecidableEq

/-- The JSON request body as destructured at lines 90-99 and 138 of the
source.  A `none` field models an absent (`undefined`) property, which
is what triggers the destructuring defaults; the handler is only ever
invoked with an object body (Vercel parses the JSON body). -/
structure ReqBody where
  userId : Option String
  displayName : Option String
  status : Option String
  bio : Option String
  theme : Option String
  notifications : Option Bool
  soundEnabled : Option Bool
  photoURL : Option String
deriving DecidableEq

/-- The parts of the incoming request that the handler reads: the
method, the `Authorization` and `Cookie` headers, and the parsed body. -/
structure Request where
  method : String
  authorization : Option String
  cookie : Option String
  body : ReqBody
deriving DecidableEq

/-- Projection returned by the GET branch (lines 172-178). -/
structure PublicUser where
  uid : String
  displayName : String
  status : String
  lastSeen : String
  photoURL : String
deriving DecidableEq

/-- The JSON bodies the handler can answer with. -/
inductive ResponseBody where
  | empty : ResponseBody
  | errorMsg : String → ResponseBody
  | userJson : String → String → String → String → ResponseBody
  | userList : List PublicUser → ResponseBody
deriving DecidableEq

structure Response where
  status : Nat
  headers : List (String × String)
  body : ResponseBody
deriving DecidableEq

/-- The module-level `users` object, keyed by userId (line 6). -/
abbrev State := List (String × UserRecord)

/-- `STATUS_ALLOWED` (line 8). -/
def STATUS_ALLOWED : List String := ["online", "away", "busy", "offline"]

/-- `TIMEOUT_MS = 3 * 60 * 1000` (line 9). -/
def TIMEOUT_MS : Nat := 3 * 60 * 1000

/-- Hexadecimal digit value, used by the percent-decoder below. -/
def hexVal (c : Char) : Option Nat :=
  if '0' ≤ c ∧ c ≤ '9' then some (c.toNat - 48)
  else if 'a' ≤ c ∧ c ≤ 'f' then some (c.toNat - 87)
  else if 'A' ≤ c ∧ c ≤ 'F' then some (c.toNat - 55)
  else none

/-- `decodeURIComponent` on the character list: a percent escape
followed by two hex digits is decoded; a malformed escape is passed
through unchanged (the JS builtin would raise `URIError` there; no
input considered in this development carries a percent sign at all). -/
def percentDecode : List Char → List Char
  | c :: a :: b :: rest =>
    if c = '%' then
      match hexVal a, hexVal b with
      | some x, some y => Char.ofNat (16 * x + y) :: percentDecode rest
      | _, _ => c :: percentDecode (a :: b :: rest)
    else c :: percentDecode (a :: b :: rest)
  | c :: rest => c :: percentDecode rest
  | [] => []

def decodeURIComp (s : String) : String := ⟨percentDecode s.data⟩

/-- Cookie branch of `getSessionToken` (lines 20-28): split the
`Cookie` header on `;`, find the first entry whose trimmed form starts
with `kc_session=`, and return the decoded text after the first `=`. -/
def cookieSessionToken (cookies : String) : Option String :=
  match (Js.split cookies ';').find? (fun row => Js.startsWith (Js.trim row) ("kc_session=")) with
  | some row => some (decodeURIComp ((Js.split row '=').getD 1 ("")))
  | none => none

/-- `getSessionToken` (lines 12-31).  A present `Authorization` header
starting with `Bearer ` wins; otherwise the cookie is consulted.  An
empty `Authorization` header is falsy in JS and also fails the
`startsWith` test here, so both fall through identically. -/
def getSessionToken (req : Request) : Option String :=
  match req.authorization with
  | some authHeader =>
    if Js.startsWith authHeader ("Bearer ") then some (Js.slice authHeader 7)
    else
      match req.cookie with
      | some cookies => cookieSessionToken cookies
      | none => none
  | none =>
    match req.cookie with
    | some cookies => cookieSessionToken cookies
    | none => none

/-- `requireAuth` (lines 34-42).  The source looks up no session store
at all: the comment at lines 38-40 says the Python session verification
is only simulated, and any non-falsy token is answered with the fixed
mock principal.  The empty-token case mirrors the JS falsy check
`if (!token) return null`. -/
def requireAuth (req : Request) : Option Principal :=
  match getSessionToken req with
  | none => none
  | some token => if token = "" then none else some ⟨"user", "User"⟩

/-- Eviction condition of `cleanup` (line 49). -/
def shouldEvict (now : Nat) (u : UserRecord) : Bool :=
  decide (now - u.timestamp > TIMEOUT_MS) || (u.status == "offline")

/-- `cleanup` (lines 45-54): delete every entry that is stale or
offline. -/
def cleanup (now : Nat) (users : State) : State :=
  users.filter (fun p => !(shouldEvict now p.2))

/-- The four headers set by `setCorsHeaders` (lines 57-62), verbatim. -/
def corsHeaders : List (String × String) :=
  [("Access-Control-Allow-Origin", "*"),
   ("Access-Control-Allow-Methods", "GET, POST, PUT, OPTIONS"),
   ("Access-Control-Allow-Headers", "Content-Type, Authorization, Cookie"),
   ("Access-Control-Allow-Credentials", "true")]

/-- `users[userId]` read access. -/
def lookupUser (userId : String) (users : State) : Option UserRecord :=
  match users.find? (fun p => p.1 == userId) with
  | some p => some p.2
  | none => none

/-- `users[userId] = record`: replace in place when the key exists,
append otherwise (JS objects keep insertion order). -/
def setUser (userId : String) (r : UserRecord) (users : State) : State :=
  if users.any (fun p => p.1 == userId) then
    users.map (fun p => if p.1 == userId then (userId, r) else p)
  else users ++ [(userId, r)]

/-- The PUT branch mutation (lines 155-157): overwrite status,
timestamp and lastSeen of the addressed entry, keep everything else. -/
def setStatusOf (userId status : String) (now : Nat) (iso : String) (users : State) : State :=
  users.map (fun p =>
    if p.1 == userId then
      (p.1, ⟨p.2.uid, p.2.displayName, status, now, iso,
             p.2.bio, p.2.theme, p.2.notifications, p.2.soundEnabled, p.2.photoURL⟩)
    else p)

/-- JS falsiness of a possibly-absent string field (`!userId`). -/
def strFalsy : Option String → Bool
  | none => true
  | some s => s == ""

/-- POST validation condition (line 102):
`!userId || !displayName || !STATUS_ALLOWED.includes(status)`, where
`status` has already received the destructuring default `online`. -/
def postInvalid (b : ReqBody) : Bool :=
  strFalsy b.userId || strFalsy b.displayName
    || !(STATUS_ALLOWED.contains (b.status.getD ("online")))

/-- `STATUS_ALLOWED.includes(status)` for the PUT branch, where an
absent `status` stays `undefined` and `includes` answers false. -/
def putStatusOk : Option String → Bool
  | some s => STATUS_ALLOWED.contains s
  | none => false

/-- PUT validation condition (line 141). -/
def putInvalid (b : ReqBody) : Bool :=
  strFalsy b.userId || !(putStatusOk b.status)

/-- The GET projection (lines 172-178).  `user.photoURL || ''` is the
identity on strings: the only falsy string is the empty one. -/
def toPublic (u : UserRecord) : PublicUser :=
  ⟨u.uid, u.displayName, u.status, u.lastSeen, u.photoURL⟩

/-- The method dispatch inside the `try` block (lines 88-191), acting
on the already-cleaned map.  Nothing in the block can throw, so the
`catch`-500 branch (lines 193-198) is unreachable in the model.
Results are (HTTP status, body, new users map). -/
def dispatch (now : Nat) (iso : String) (req : Request) (users1 : State) :
    Nat × ResponseBody × State :=
  if req.method = "POST" then
    if postInvalid req.body then
      (400, .errorMsg ("Invalid data. userId, displayName and valid status required."), users1)
    else
      let userId := req.body.userId.getD ("")
      let displayName := req.body.displayName.getD ("")
      let status := req.body.status.getD ("online")
      let record : UserRecord :=
        ⟨userId, displayName, status, now, iso,
         req.body.bio.getD (""), req.body.theme.getD ("light"),
         req.body.notifications.getD true, req.body.soundEnabled.getD true,
         req.body.photoURL.getD ("")⟩
      (201, .userJson userId displayName status iso, setUser userId record users1)
  else if req.method = "PUT" then
    if putInvalid req.body then
      (400, .errorMsg ("Invalid data. userId and valid status required."), users1)
    else
      let userId := req.body.userId.getD ("")
      let status := req.body.status.getD ("")
      match lookupUser userId users1 with
      | none => (404, .errorMsg ("User not found"), users1)
      | some r =>
        (200, .userJson userId r.displayName status iso, setStatusOf userId status now iso users1)
  else if req.method = "GET" then
    (200,
     .userList ((users1.filter (fun p => p.2.status != "offline")).map (fun p => toPublic p.2)),
     users1)
  else
    (405, .errorMsg ("Method not allowed"), users1)

/-- The handler gates (lines 69-86): preflight OPTIONS answers 200
immediately; a request `requireAuth` rejects answers 401; only then
does `cleanup` run, and the dispatch operates on the cleaned map. -/
def handlerCore (now : Nat) (iso : String) (req : Request) (users : State) :
    Nat × ResponseBody × State :=
  if req.method = "OPTIONS" then (200, .empty, users)
  else
    match requireAuth req with
    | none => (401, .errorMsg ("Authentication required"), users)
    | some _ => dispatch now iso req (cleanup now users)

/-- `handler` (lines 69-199): `setCorsHeaders(res)` runs first, so every
response — whatever the branch — carries exactly `corsHeaders`. -/
def handler (now : Nat) (iso : String) (req : Request) (users : State) :
    Response × State :=
  (⟨(handlerCore now iso req users).1, corsHeaders, (handlerCore now iso req users).2.1⟩,
   (handlerCore now iso req users).2.2)

end UserStatus

namespace AuthManager

/-!
Embedding of the authentication methods of `src/auth.js`.  Each method
awaits one or more external calls (Firebase SDK calls, `fetch`); any of
those calls can either resolve with a value or throw.  A call outcome
is modelled as `Except String α`: `.ok` is a resolved promise, `.error`
a thrown exception carrying its `message`.  Every method of the source
wraps its entire body in `try`/`catch` and returns
`{ success: false, error: error.message }` from the `catch`, so the
Lean functions are total with codomain `AuthResult` — the absence of an
exception channel in the type is exactly the never-propagates property,
and it holds for every combination of call outcomes.
-/

/-- The result object the `src/auth.js` methods resolve with.  `user`
carries the uid of the signed-in user when one is returned; the profile
payloads are not observable by any property below and are omitted. -/
structure AuthResult where
  success : Bool
  user : Option String
  error : Option String
deriving DecidableEq

/-- `createUserProfile` (lines 190-211): posts the profile, throws on a
non-ok response, and catches everything, so it never rejects.  The
`fetchOut` parameter is the combined outcome of `getIdToken` and
`fetch` (`.ok flag` is a response with `response.ok = flag`). -/
def createUserProfile (fetchOut : Except String Bool) : AuthResult :=
  match fetchOut with
  | .error e => ⟨false, none, some e⟩
  | .ok true => ⟨true, none, none⟩
  | .ok false => ⟨false, none, some ("Failed to create profile")⟩

/-- `signUpWithEmail` (lines 107-130): create the account, update the
display name, create the Firestore profile (whose own result is ignored
and which never throws), and answer success; any thrown step lands in
the `catch`. -/
def signUpWithEmail (createOut : Except String String) (updateOut : Except String Unit)
    (profileFetchOut : Except String Bool) : AuthResult :=
  match createOut with
  | .error e => ⟨false, none, some e⟩
  | .ok uid =>
    match updateOut with
    | .error e => ⟨false, none, some e⟩
    | .ok _ =>
      let _ := createUserProfile profileFetchOut
      ⟨true, some uid, none⟩

/-- `signInWithEmail` (lines 132-140). -/
def signInWithEmail (signInOut : Except String String) : AuthResult :=
  match signInOut with
  | .ok uid => ⟨true, some uid, none⟩
  | .error e => ⟨false, none, some e⟩

/-- `signInWithGoogle` (lines 142-167): the popup resolves with the
user and the `isNewUser` flag; a new user additionally gets a profile
created (result ignored, never throws). -/
def signInWithGoogle (popupOut : Except String (String × Bool))
    (profileFetchOut : Except String Bool) : AuthResult :=
  match popupOut with
  | .error e => ⟨false, none, some e⟩
  | .ok (uid, isNewUser) =>
    let _ := if isNewUser then some (createUserProfile profileFetchOut) else none
    ⟨true, some uid, none⟩

/-- `signOut` (lines 169-177). -/
def signOut (out : Except String Unit) : AuthResult :=
  match out with
  | .ok _ => ⟨true, none, none⟩
  | .error e => ⟨false, none, some e⟩

/-- `resetPassword` (lines 179-187). -/
def resetPassword (out : Except String Unit) : AuthResult :=
  match out with
  | .ok _ => ⟨true, none, none⟩
  | .error e => ⟨false, none, some e⟩

end AuthManager

namespace CredentialHasher

/-!
Modelled from the spec: the Credential Hasher (spec sections 4.1 and 8)
is implemented in the Python API layer (`api/security_utils.py`, bcrypt
with cost factor 12 per the repository deployment guide), which is not
part of the shipped source tree.  The model keeps the structure the
spec fixes — a tagged `legacy-v1 | adaptive-v2` verifier union, a
salted cost-parameterized adaptive digest, recompute-and-compare for
the legacy tag with the migration flag, and total error absorption for
malformed payloads — and stands in a small executable mixing function
for the bcrypt core, whose internals no property below depends on.
-/

/-- The verifier tag (spec section 3, Account record). -/
inductive Algorithm where
  | legacyV1 : Algorithm
  | adaptiveV2 : Algorithm
deriving DecidableEq

/-- `verifier: { algorithm, payload: bytes }` (spec section 3). -/
structure Verifier where
  algorithm : Algorithm
  payload : List Nat
deriving DecidableEq

/-- `verify` result (spec section 4.1).  The spec names the first field
`match`, which is a Lean keyword; it is rendered `matched`. -/
structure VerifyResult where
  matched : Bool
  needsMigration : Bool
deriving DecidableEq

/-- Fixed adaptive cost factor (spec: tuned constant; the deployment
guide pins bcrypt rounds at 12). -/
def COST : Nat := 12

def SALT_LEN : Nat := 16

def DIGEST_LEN : Nat := 4

def PAYLOAD_LEN : Nat := SALT_LEN + DIGEST_LEN

/-- The plaintext as a byte-like sequence (modelled as the code points
of its characters). -/
def strBytes (p : String) : List Nat := p.data.map (fun c => c.toNat)

/-- Iteration helper for the cost loop. -/
def iterN {α : Type} (f : α → α) : Nat → α → α
  | 0, a => a
  | n + 1, a => iterN f n (f a)

/-- One cost round of the stand-in adaptive core. -/
def stretchStep (a : Nat) : Nat := (a * 2654435761 + 12345) % 4294967296

/-- Stand-in for the salted adaptive hash core: absorb salt and
plaintext bytes, then stretch for `cost` rounds. -/
def adaptiveCore (cost : Nat) (salt : List Nat) (bytes : List Nat) : Nat :=
  iterN stretchStep cost
    ((salt ++ bytes).foldl (fun a b => (a * 131 + b + 1) % 4294967296) 5381)

def natToBytes4 (n : Nat) : List Nat :=
  [n % 256, n / 256 % 256, n / 65536 % 256, n / 16777216 % 256]

/-- The adaptive digest: always exactly `DIGEST_LEN` bytes. -/
def adaptiveDigest (cost : Nat) (salt : List Nat) (p : String) : List Nat :=
  natToBytes4 (adaptiveCore cost salt (strBytes p))

/-- Stand-in for the bare fast legacy hash (spec: `legacy-v1` is an
unsalted fast cryptographic hash). -/
def legacyDigest (p : String) : List Nat :=
  natToBytes4 (iterN stretchStep 1 ((strBytes p).foldl (fun a b => (a * 33 + b) % 4294967296) 17))

/-- Normalize a caller-supplied salt to exactly `SALT_LEN` bytes. -/
def padSalt (salt : List Nat) : List Nat :=
  ((salt.map (fun b => b % 256)) ++ List.replicate SALT_LEN 0).take SALT_LEN

/-- `hash(plaintext) -> verifier` (spec section 4.1): always an
`adaptive-v2` verifier whose payload is the salt followed by the
digest.  The salt source is a caller argument so that the function is
deterministic for the proofs; the property checked holds for every
salt. -/
def hash (salt : List Nat) (p : String) : Verifier :=
  ⟨.adaptiveV2, padSalt salt ++ adaptiveDigest COST (padSalt salt) p⟩

/-- The underlying check primitive, which — like bcrypt applied to a
corrupt stored value — fails on a payload of the wrong byte length.
`verify` below absorbs that failure. -/
def rawCheck (p : String) (v : Verifier) : Except String Bool :=
  match v.algorithm with
  | .adaptiveV2 =>
    if v.payload.length = PAYLOAD_LEN then
      .ok (v.payload.drop SALT_LEN == adaptiveDigest COST (v.payload.take SALT_LEN) p)
    else .error ("malformed adaptive-v2 payload")
  | .legacyV1 =>
    if v.payload.length = DIGEST_LEN then .ok (v.payload == legacyDigest p)
    else .error ("malformed legacy-v1 payload")

/-- `verify(plaintext, verifier)` (spec sections 4.1 and 7): total —
a failing underlying check yields `matched = false` instead of an
exception; a matching `legacy-v1` verifier sets `needsMigration`. -/
def verify (p : String) (v : Verifier) : VerifyResult :=
  match rawCheck p v with
  | .error _ => ⟨false, false⟩
  | .ok m =>
    ⟨m, match v.algorithm with
        | .legacyV1 => m
        | .adaptiveV2 => false⟩

end CredentialHasher

namespace AbuseThrottle

/-!
Modelled from the spec: the Abuse Throttle (spec section 4.3) is
implemented in the Python API layer, which is not part of the shipped
source tree.  The model keeps one `BlockRecord` per throttle key
(address or account identity), the rolling failure window, the
escalating lockout schedule (5 failures = 5 minutes, 10 = 30 minutes,
15+ = 2 hours, the spec's illustrative tiers), the monotone
`blockedUntil`, and the rule that a blocked key is rejected before any
credential verification runs.  The rolling-window length is a modelled
constant (15 minutes); no property below depends on its exact value.
The number of credential verifications performed is threaded through
`loginAttempt` as the explicit counter `hashCount`, so "no verification
was performed" is the assertion that the counter is unchanged.
-/

/-- `Block record` (spec section 3): failure timestamps inside the
rolling window, newest first, and the lockout deadline. -/
structure BlockRecord where
  attempts : List Nat
  blockedUntil : Option Nat
deriving DecidableEq

def WINDOW_MS : Nat := 900000

/-- Escalating lockout schedule, in milliseconds (spec section 4.3). -/
def lockDuration (n : Nat) : Nat :=
  if 15 ≤ n then 7200000 else if 10 ≤ n then 1800000 else if 5 ≤ n then 300000 else 0

/-- Whether the key is blocked at `now`: `blockedUntil` lies strictly
in the future. -/
def isBlocked (now : Nat) (st : BlockRecord) : Bool :=
  match st.blockedUntil with
  | some b => decide (now < b)
  | none => false

/-- On failed verification (spec section 4.3): append the failure
timestamp, drop entries that left the rolling window, and — when a
threshold is crossed — raise `blockedUntil` to `now + duration(tier)`,
never lowering it (the monotonicity invariant). -/
def recordFailure (now : Nat) (st : BlockRecord) : BlockRecord :=
  let att := (now :: st.attempts).filter (fun t => decide (now - t ≤ WINDOW_MS))
  let d := lockDuration att.length
  ⟨att,
   if d = 0 then st.blockedUntil
   else
     match st.blockedUntil with
     | none => some (now + d)
     | some b => some (max b (now + d))⟩

inductive LoginOutcome where
  | locked : LoginOutcome
  | success : LoginOutcome
  | badCredentials : LoginOutcome
deriving DecidableEq

/-- One login attempt against a single throttle key (spec sections 4.3
and 4.6).  `credsOk` is what the Credential Hasher would answer;
`hashCount` counts how many times it has actually been invoked.  A
blocked key is rejected with the `locked` outcome before the hasher
runs, so the counter is untouched on that path; both other paths invoke
the hasher exactly once.  A successful verification clears the failure
history for this key. -/
def loginAttempt (now : Nat) (credsOk : Bool) (st : BlockRecord) (hashCount : Nat) :
    LoginOutcome × BlockRecord × Nat :=
  if isBlocked now st then (.locked, st, hashCount)
  else if credsOk then (.success, ⟨[], none⟩, hashCount + 1)
  else (.badCredentials, recordFailure now st, hashCount + 1)

/-- The empty throttle state of a fresh key. -/
def emptyBlock : BlockRecord := ⟨[], none⟩

/-- State of a key after `n` consecutive failed attempts issued at the
times `t0, t0 + 1, …, t0 + n - 1`. -/
def failN (t0 : Nat) : Nat → BlockRecord
  | 0 => emptyBlock
  | n + 1 => (loginAttempt (t0 + n) false (failN t0 n) 0).2.1

end AbuseThrottle

namespace Fx

/-! Concrete fixtures used by the closed theorems below. -/

def emptyBody : UserStatus.ReqBody := ⟨none, none, none, none, none, none, none, none⟩

/-- A GET request bearing a token for which no session record exists
anywhere (the endpoint consults no session store at all). -/
def reqBogus : UserStatus.Request := ⟨"GET", some ("Bearer bogus"), none, emptyBody⟩

/-- A POST whose displayName is a script-injection payload. -/
def postScript : UserStatus.Request :=
  ⟨"POST", some ("Bearer t"), none,
   ⟨some ("u1"), some ("<script>alert(1)</script>"), some ("online"),
    none, none, none, none, none⟩⟩

/-- A valid POST registering the user alice. -/
def postAlice : UserStatus.Request :=
  ⟨"POST", some ("Bearer t"), none,
   ⟨some ("alice"), some ("Alice"), some ("online"), none, none, none, none, none⟩⟩

/-- An authenticated GET. -/
def getReq : UserStatus.Request := ⟨"GET", some ("Bearer t"), none, emptyBody⟩

/-- A preflight request. -/
def optionsReq : UserStatus.Request := ⟨"OPTIONS", some ("Bearer t"), none, emptyBody⟩

/-- A stored user with status offline (subject to eviction). -/
def bobOffline : UserStatus.UserRecord :=
  ⟨"u9", "Bob", "offline", 0, "2025-01-01", "", "light", true, true, ""⟩

def sOffline : UserStatus.State := [("u9", bobOffline)]

/-- A fresh online user (timestamp 950000, checked at now = 1000000). -/
def aliceFresh : UserStatus.UserRecord :=
  ⟨"alice", "Alice", "online", 950000, "2025-01-01", "", "light", true, true, ""⟩

def sMix : UserStatus.State := [("u9", bobOffline), ("alice", aliceFresh)]

/-- A stale online user (timestamp 0, checked at now = 1000000). -/
def staleOnline : UserStatus.UserRecord :=
  ⟨"old", "Old", "online", 0, "2024-01-01", "", "light", true, true, ""⟩

def sStale : UserStatus.State := [("old", staleOnline)]

/-- A POST missing displayName (fails validation). -/
def badPost : UserStatus.Request :=
  ⟨"POST", some ("Bearer t"), none,
   ⟨some ("u1"), none, none, none, none, none, none, none⟩⟩

/-- A well-formed PUT addressing a userId that is not stored. -/
def phantomPut : UserStatus.Request :=
  ⟨"PUT", some ("Bearer t"), none,
   ⟨some ("ghost"), none, some ("online"), none, none, none, none, none⟩⟩

/-- A structurally malformed adaptive-v2 verifier (payload of the wrong
byte length). -/
def badVerifier : CredentialHasher.Verifier := ⟨.adaptiveV2, [0, 1, 2]⟩

end Fx

/-! ## Helper lemmas -/

/-- Taking exactly the length of the left part of an append returns the
left part. -/
theorem take_len_append {α : Type} (l₁ l₂ : List α) : (l₁ ++ l₂).take l₁.length = l₁ := by
  induction l₁ with
  | nil => rfl
  | cons a t ih => simp [ih]

/-- Dropping exactly the length of the left part of an append returns
the right part. -/
theorem drop_len_append {α : Type} (l₁ l₂ : List α) : (l₁ ++ l₂).drop l₁.length = l₂ := by
  induction l₁ with
  | nil => rfl
  | cons a t ih => simp [ih]

/-- Normalized salts have exactly `SALT_LEN` bytes. -/
theorem padSalt_length (salt : List Nat) :
    (CredentialHasher.padSalt salt).length = CredentialHasher.SALT_LEN := by
  simp [CredentialHasher.padSalt, CredentialHasher.SALT_LEN]

/-! ## Claim theorems -/

/-- C1.  The claim says a session token yields an authenticated
principal only when a stored, unrevoked, unexpired Session record
exists for that exact token, with 401 otherwise.  The code diverges:
`requireAuth` in `src/api/user-status.js` consults no session store at
all (its only input is the request) and answers the fixed mock
principal for any non-empty bearer token.  Concretely, a GET carrying
the token `bogus` — for which no session record can exist, the endpoint
having no store — is authenticated and served with 200, not 401. -/
theorem c1_bearer_token_trusted_without_session_store :
    UserStatus.requireAuth Fx.reqBogus = some ⟨"user", "User"⟩ ∧
    (UserStatus.handler 1000 "2025-01-01" Fx.reqBogus []).1.status = 200 := by
  decide

/-- C2.  The claim says the emitted `Access-Control-Allow-Origin`
header is an exact allow-list match and never the wildcard for
credentialed requests.  The code diverges: `setCorsHeaders` in
`src/api/user-status.js` puts the literal wildcard into every response
— credentialed or not — together with
`Access-Control-Allow-Credentials: true`, so in particular every
request carrying a cookie or bearer token is answered with the
wildcard. -/
theorem c2_cors_wildcard_emitted_with_credentials (now : Nat) (iso : String)
    (req : UserStatus.Request) (s : UserStatus.State) :
    (UserStatus.handler now iso req s).1.headers = UserStatus.corsHeaders ∧
    ("Access-Control-Allow-Origin", "*") ∈ UserStatus.corsHeaders ∧
    ("Access-Control-Allow-Credentials", "true") ∈ UserStatus.corsHeaders :=
  ⟨rfl, by decide, by decide⟩

/-- C3.  The claim says a validated field containing a
`<script>...</script>` payload is rejected with a validation error
before reaching storage.  The code diverges: the POST branch of
`src/api/user-status.js` validates only presence of `userId` and
`displayName` and membership of `status`, so a `displayName` equal to
`<script>alert(1)</script>` passes validation, is persisted into the
`users` map verbatim, and the request is answered 201. -/
theorem c3_script_payload_stored_unrejected :
    (UserStatus.handler 1000 "2025-01-01" Fx.postScript []).1.status = 201 ∧
    (UserStatus.handler 1000 "2025-01-01" Fx.postScript []).2.map (fun p => p.2.displayName)
      = ["<script>alert(1)</script>"] := by
  decide

/-- C4.  For every plaintext `p` (and every salt the hasher may draw),
verifying `p` against the verifier produced by hashing `p` succeeds:
`verify(p, hash(p)).match = true`.  Modelled from the spec (sections
4.1 and 8); the hasher itself is in the Python API layer outside the
shipped source tree. -/
theorem c4_verify_of_hash_matches (salt : List Nat) (p : String) :
    (CredentialHasher.verify p (CredentialHasher.hash salt p)).matched = true := by
  have hs := padSalt_length salt
  have hlen : (CredentialHasher.padSalt salt ++
      CredentialHasher.adaptiveDigest CredentialHasher.COST (CredentialHasher.padSalt salt) p).length
      = CredentialHasher.PAYLOAD_LEN := by
    simp [List.length_append, hs, CredentialHasher.adaptiveDigest, CredentialHasher.natToBytes4,
          CredentialHasher.PAYLOAD_LEN, CredentialHasher.DIGEST_LEN]
  have htake : (CredentialHasher.padSalt salt ++
      CredentialHasher.adaptiveDigest CredentialHasher.COST (CredentialHasher.padSalt salt) p).take
        CredentialHasher.SALT_LEN = CredentialHasher.padSalt salt := by
    rw [← hs]; exact take_len_append _ _
  have hdrop : (CredentialHasher.padSalt salt ++
      CredentialHasher.adaptiveDigest CredentialHasher.COST (CredentialHasher.padSalt salt) p).drop
        CredentialHasher.SALT_LEN
      = CredentialHasher.adaptiveDigest CredentialHasher.COST (CredentialHasher.padSalt salt) p := by
    rw [← hs]; exact drop_len_append _ _
  simp [CredentialHasher.verify, CredentialHasher.rawCheck, CredentialHasher.hash,
        hlen, htake, hdrop]

/-- C5.  Modelled from the spec (section 4.3).  First part: for every
throttle key whose `blockedUntil` lies strictly in the future, a login
attempt is rejected with the `locked` outcome, the block record is
untouched, and the hash counter is unchanged — no credential
verification is performed, whether or not the supplied credentials are
correct.  Second part: after the five consecutive failures that cross
the first threshold (issued at times 0 through 4 from a fresh key), the
sixth attempt — even with correct credentials and for every prior hash
count — is rejected as locked. -/
theorem c5_blocked_key_rejected_before_verification :
    (∀ now b st c k, st.blockedUntil = some b → now < b →
      AbuseThrottle.loginAttempt now c st k = (.locked, st, k)) ∧
    (∀ k, AbuseThrottle.loginAttempt 5 true (AbuseThrottle.failN 0 5) k
        = (.locked, AbuseThrottle.failN 0 5, k)) := by
  constructor
  · intro now b st c k hb hn
    simp [AbuseThrottle.loginAttempt, AbuseThrottle.isBlocked, hb, hn]
  · intro k
    have h5 : AbuseThrottle.failN 0 5 = ⟨[4, 3, 2, 1, 0], some 300004⟩ := by decide
    rw [h5]
    simp [AbuseThrottle.loginAttempt, AbuseThrottle.isBlocked]

/-- C5 witness: a concretely blocked key (blocked until 100, attempt at
50, correct credentials, hash counter 7) is rejected without touching
the counter. -/
theorem c5_blocked_key_rejected_before_verification_witness :
    AbuseThrottle.loginAttempt 50 true ⟨[], some 100⟩ 7 = (.locked, ⟨[], some 100⟩, 7) :=
  c5_blocked_key_rejected_before_verification.1 50 100 ⟨[], some 100⟩ true 7 rfl (by decide)

/-- C6.  The claim says throttle and session state live in an external
store shared by all server instances, never in an instance-local
in-memory dictionary.  The code diverges: the only server-side state in
the shipped source is the module-level `users` object of
`src/api/user-status.js`, local to each serverless instance.  Modelled
as each instance threading its own `State` value: after instance A
handles a registration POST, its own map contains alice, while instance
B — answering from its own module state, which is still the initial
empty object — serves a GET reporting nobody online. -/
theorem c6_users_map_not_shared_across_instances :
    (UserStatus.lookupUser ("alice")
        (UserStatus.handler 500 "2025-01-01" Fx.postAlice []).2).isSome = true ∧
    (UserStatus.handler 500 "2025-01-01" Fx.getReq []).1.body
      = UserStatus.ResponseBody.userList [] := by
  decide

/-- C7.  Modelled from the spec (sections 4.1 and 7).  A verifier whose
payload is malformed — its byte length is not what its tag demands, so
the underlying check primitive fails — is answered by `verify` with
`match = false` (and no migration flag); `verify` itself has no error
channel in its type, so no exception propagates to the caller. -/
theorem c7_malformed_verifier_yields_no_match (p : String)
    (v : CredentialHasher.Verifier) (e : String)
    (h : CredentialHasher.rawCheck p v = Except.error e) :
    CredentialHasher.verify p v = ⟨false, false⟩ := by
  unfold CredentialHasher.verify
  rw [h]

/-- C7 witness: an adaptive-v2 verifier with a three-byte payload makes
the underlying check fail, and `verify` absorbs that failure into a
non-match. -/
theorem c7_malformed_verifier_yields_no_match_witness :
    CredentialHasher.rawCheck ("pw") Fx.badVerifier
      = Except.error ("malformed adaptive-v2 payload") ∧
    CredentialHasher.verify ("pw") Fx.badVerifier = ⟨false, false⟩ :=
  ⟨rfl, c7_malformed_verifier_yields_no_match ("pw") Fx.badVerifier
    ("malformed adaptive-v2 payload") rfl⟩

/-- C8 counterexample.  The claim as stated says every request to the
handler first evicts every stale or offline entry.  It fails on the
code: an OPTIONS preflight returns at line 75, before `cleanup` runs,
so an offline entry — which `shouldEvict` marks for eviction — survives
the request untouched. -/
theorem c8_options_request_evicts_nothing :
    UserStatus.shouldEvict 1000000 Fx.bobOffline = true ∧
    (UserStatus.handler 1000000 "2025-01-01" Fx.optionsReq Fx.sOffline).2 = Fx.sOffline := by
  decide

/-- C8 (amended).  Every request that is not an OPTIONS preflight and
passes the authentication gate is dispatched on the evicted map: the
handler result equals the dispatch applied to `cleanup now s`, every
entry surviving the eviction is at most three minutes old and not
offline, and the list the GET branch returns holds only non-offline
users drawn from that evicted map. -/
theorem c8_authenticated_requests_evict_then_dispatch (now : Nat) (iso : String)
    (req : UserStatus.Request) (s : UserStatus.State)
    (hm : req.method ≠ "OPTIONS") (ha : UserStatus.requireAuth req ≠ none) :
    (UserStatus.handler now iso req s).2
        = (UserStatus.dispatch now iso req (UserStatus.cleanup now s)).2.2 ∧
    (UserStatus.handler now iso req s).1.status
        = (UserStatus.dispatch now iso req (UserStatus.cleanup now s)).1 ∧
    (∀ p ∈ UserStatus.cleanup now s,
        now - p.2.timestamp ≤ UserStatus.TIMEOUT_MS ∧ p.2.status ≠ "offline") ∧
    (req.method = "GET" →
      ∃ L, (UserStatus.handler now iso req s).1.body = UserStatus.ResponseBody.userList L ∧
        ∀ u ∈ L, u.status ≠ "offline" ∧
          ∃ k r, (k, r) ∈ UserStatus.cleanup now s ∧
            now - r.timestamp ≤ UserStatus.TIMEOUT_MS ∧ u = UserStatus.toPublic r) := by
  rcases hr : UserStatus.requireAuth req with _ | pr
  · exact absurd hr ha
  have hcore : UserStatus.handlerCore now iso req s
      = UserStatus.dispatch now iso req (UserStatus.cleanup now s) := by
    simp [UserStatus.handlerCore, hm, hr]
  have hfresh : ∀ p ∈ UserStatus.cleanup now s,
      now - p.2.timestamp ≤ UserStatus.TIMEOUT_MS ∧ p.2.status ≠ "offline" := by
    intro p hp
    have hmem := List.mem_filter.mp hp
    have hev := hmem.2
    simp [UserStatus.shouldEvict, not_or, Nat.not_lt] at hev
    exact ⟨by omega, hev.2⟩
  refine ⟨by simp [UserStatus.handler, hcore], by simp [UserStatus.handler, hcore], hfresh, ?_⟩
  intro hg
  have hd : UserStatus.dispatch now iso req (UserStatus.cleanup now s)
      = (200, .userList (((UserStatus.cleanup now s).filter
            (fun p => p.2.status != "offline")).map (fun p => UserStatus.toPublic p.2)),
         UserStatus.cleanup now s) := by
    simp [UserStatus.dispatch, hg]
  refine ⟨((UserStatus.cleanup now s).filter
      (fun p => p.2.status != "offline")).map (fun p => UserStatus.toPublic p.2),
    by simp [UserStatus.handler, hcore, hd], ?_⟩
  intro u hu
  rcases List.mem_map.mp hu with ⟨p, hp, rfl⟩
  have hmem := List.mem_filter.mp hp
  have hne : p.2.status ≠ "offline" := by
    have := hmem.2
    simpa using this
  exact ⟨by simpa [UserStatus.toPublic] using hne,
         p.1, p.2, hmem.1, (hfresh p hmem.1).1, rfl⟩

/-- C8 witness: an authenticated GET over a map holding one offline and
one fresh entry is served from the evicted map. -/
theorem c8_authenticated_requests_evict_then_dispatch_witness :
    (UserStatus.handler 1000000 "2025-01-01" Fx.getReq Fx.sMix).2
      = (UserStatus.dispatch 1000000 "2025-01-01" Fx.getReq
          (UserStatus.cleanup 1000000 Fx.sMix)).2.2 :=
  (c8_authenticated_requests_evict_then_dispatch 1000000 "2025-01-01" Fx.getReq Fx.sMix
    (by decide) (by decide)).1

/-- C9 counterexample.  The claim as stated says an error response
leaves the stored state exactly as it was before the request.  It fails
on the code: `cleanup` runs before the method dispatch, so a POST that
is rejected 400 for a missing `displayName` still evicts a stale entry
— the map after the request differs from the map before it. -/
theorem c9_error_response_state_not_identical :
    (UserStatus.handler 1000000 "2025-01-01" Fx.badPost Fx.sStale).1.status = 400 ∧
    (UserStatus.handler 1000000 "2025-01-01" Fx.badPost Fx.sStale).2 ≠ Fx.sStale := by
  decide

/-- C9 (amended).  The error branches themselves perform no writes: an
unauthenticated request is answered 401 with the state exactly
unchanged; an authenticated POST failing validation is answered 400
with the state exactly the eviction cleanup of the prior state; an
authenticated well-formed PUT addressing a userId absent from the
evicted map is answered 404 with the state exactly that evicted map and
no entry created for the userId. -/
theorem c9_error_branches_perform_no_writes (now : Nat) (iso : String)
    (req : UserStatus.Request) (s : UserStatus.State) :
    (UserStatus.requireAuth req = none → req.method ≠ "OPTIONS" →
      UserStatus.handler now iso req s
        = (⟨401, UserStatus.corsHeaders, .errorMsg ("Authentication required")⟩, s)) ∧
    (UserStatus.requireAuth req ≠ none → req.method = "POST" →
      UserStatus.postInvalid req.body = true →
      (UserStatus.handler now iso req s).1.status = 400 ∧
      (UserStatus.handler now iso req s).2 = UserStatus.cleanup now s) ∧
    (UserStatus.requireAuth req ≠ none → req.method = "PUT" →
      UserStatus.putInvalid req.body = false →
      UserStatus.lookupUser (req.body.userId.getD ("")) (UserStatus.cleanup now s) = none →
      (UserStatus.handler now iso req s).1.status = 404 ∧
      (UserStatus.handler now iso req s).2 = UserStatus.cleanup now s ∧
      UserStatus.lookupUser (req.body.userId.getD ("")) (UserStatus.handler now iso req s).2
        = none) := by
  refine ⟨?_, ?_, ?_⟩
  · intro ha hm
    simp [UserStatus.handler, UserStatus.handlerCore, hm, ha]
  · intro ha hm hv
    rcases hr : UserStatus.requireAuth req with _ | pr
    · exact absurd hr ha
    have hmo : req.method ≠ "OPTIONS" := by rw [hm]; decide
    have hcore : UserStatus.handlerCore now iso req s
        = UserStatus.dispatch now iso req (UserStatus.cleanup now s) := by
      simp [UserStatus.handlerCore, hmo, hr]
    have hd : UserStatus.dispatch now iso req (UserStatus.cleanup now s)
        = (400, .errorMsg ("Invalid data. userId, displayName and valid status required."),
           UserStatus.cleanup now s) := by
      simp [UserStatus.dispatch, hm, hv]
    constructor
    · simp [UserStatus.handler, hcore, hd]
    · simp [UserStatus.handler, hcore, hd]
  · intro ha hm hv hl
    rcases hr : UserStatus.requireAuth req with _ | pr
    · exact absurd hr ha
    have hmo : req.method ≠ "OPTIONS" := by rw [hm]; decide
    have hcore : UserStatus.handlerCore now iso req s
        = UserStatus.dispatch now iso req (UserStatus.cleanup now s) := by
      simp [UserStatus.handlerCore, hmo, hr]
    have hd : UserStatus.dispatch now iso req (UserStatus.cleanup now s)
        = (404, .errorMsg ("User not found"), UserStatus.cleanup now s) := by
      simp [UserStatus.dispatch, hm, hv, hl]
    refine ⟨by simp [UserStatus.handler, hcore, hd],
            by simp [UserStatus.handler, hcore, hd], ?_⟩
    simp [UserStatus.handler, hcore, hd, hl]

/-- C9 witness: a POST with no displayName over a map holding one stale
entry is answered 400 and the state is exactly the evicted map; a
well-formed PUT for the absent userId ghost is answered 404, with the
state the evicted map and still no entry for ghost. -/
theorem c9_error_branches_perform_no_writes_witness :
    ((UserStatus.handler 1000000 "2025-01-01" Fx.badPost Fx.sStale).1.status = 400 ∧
     (UserStatus.handler 1000000 "2025-01-01" Fx.badPost Fx.sStale).2
       = UserStatus.cleanup 1000000 Fx.sStale) ∧
    ((UserStatus.handler 1000000 "2025-01-01" Fx.phantomPut Fx.sStale).1.status = 404 ∧
     (UserStatus.handler 1000000 "2025-01-01" Fx.phantomPut Fx.sStale).2
       = UserStatus.cleanup 1000000 Fx.sStale ∧
     UserStatus.lookupUser ("ghost")
       (UserStatus.handler 1000000 "2025-01-01" Fx.phantomPut Fx.sStale).2 = none) :=
  ⟨(c9_error_branches_perform_no_writes 1000000 "2025-01-01" Fx.badPost Fx.sStale).2.1
      (by decide) rfl (by decide),
   (c9_error_branches_perform_no_writes 1000000 "2025-01-01" Fx.phantomPut Fx.sStale).2.2
      (by decide) rfl (by decide) (by decide)⟩

/-- C10.  Every authentication method of the `src/auth.js` AuthManager
— signUpWithEmail, signInWithEmail, signInWithGoogle, resetPassword,
signOut — is total over every combination of outcomes of the external
calls it awaits (its Lean codomain is the plain result record, with no
exception channel), and its result carries an error message exactly
when its boolean success field is false. -/
theorem c10_auth_methods_total_with_success_flag :
    (∀ a b c, (AuthManager.signUpWithEmail a b c).error.isSome
        = !(AuthManager.signUpWithEmail a b c).success) ∧
    (∀ a, (AuthManager.signInWithEmail a).error.isSome
        = !(AuthManager.signInWithEmail a).success) ∧
    (∀ a b, (AuthManager.signInWithGoogle a b).error.isSome
        = !(AuthManager.signInWithGoogle a b).success) ∧
    (∀ a, (AuthManager.resetPassword a).error.isSome = !(AuthManager.resetPassword a).success) ∧
    (∀ a, (AuthManager.signOut a).error.isSome = !(AuthManager.signOut a).success) := by
  refine ⟨?_, ?_, ?_, ?_, ?_⟩
  · intro a b c
    cases a <;> cases b <;> rfl
  · intro a
    cases a <;> rfl
  · intro a b
    cases a with
    | error e => rfl
    | ok p => cases p; rfl
  · intro a
    cases a <;> rfl
  · intro a
    cases a <;> rfl

end KitchenChat

